import Mathlib

set_option maxRecDepth 100000

/-!
Verification of the fraud-investigation prompt pipeline.

Shallow embedding of the two agents (`InvestigationAgent`, `ExplanationAgent`)
and the LLM gateway (`LLMClient`) of the repository.  The SQLite database is
modelled as lists of records; a `SELECT ... WHERE key = v` followed by
`iloc[0]` is modelled by `List.find?`; currency floats are modelled as integer
cents and z-scores as integer hundredths, so the Python `:,.2f` / `:.2f`
format specifiers become exact functions on `Nat` / `Int`.  A Python
`TypeError` raised by subscripting `None`, and a `KeyError` raised by a
missing dict key, are modelled by `Except.error` carrying the error kind.
The completion backend is an abstract function from the request actually
submitted (messages plus sampling temperature) to a response text.
-/

/-- A row of the `claims` table.  `claim_amount` is in cents;
`amount_zscore` is in hundredths and optional, mirroring
`claim.get('amount_zscore', 0)`. -/
structure Claim where
  claim_id : String
  claim_amount : Nat
  claim_date : String
  provider_id : String
  patient_id : String
  procedure_code : String
  diagnosis_code : String
  status : String
  provider_specialty : String
  amount_zscore : Option Int
  is_fraud : Nat
deriving DecidableEq

/-- A row of the `providers` table (monetary fields in cents). -/
structure Provider where
  provider_id : String
  total_claims : Nat
  avg_claim_amount : Nat
  total_billed : Nat
  fraud_claims : Nat
deriving DecidableEq

/-- A row of the `patients` table (monetary fields in cents). -/
structure Patient where
  patient_id : String
  total_claims : Nat
  total_spent : Nat
  fraud_claims : Nat
deriving DecidableEq

/-- A row of the `fraud_flags` table. -/
structure FraudFlag where
  claim_id : String
  fraud_detected : Nat
  fraud_score : Nat
  rules_triggered : String
  explanation : String
deriving DecidableEq

/-- The relational data source: the four tables read by the agents. -/
structure DB where
  claims : List Claim
  providers : List Provider
  patients : List Patient
  fraud_flags : List FraudFlag
deriving DecidableEq

/-! ## Number formatting (Python `:,.2f` and `:.2f` on exact values) -/

/-- Insert a comma after every three characters of a little-endian digit
list, mirroring the thousands grouping of Python's `:,` format. -/
def group3Rev : List Char → List Char
  | a :: b :: c :: d :: rest => a :: b :: c :: ',' :: group3Rev (d :: rest)
  | l => l

/-- Decimal rendering of a natural number with thousands separators. -/
def fmtGrouped (n : Nat) : String :=
  String.mk ((group3Rev (Nat.toDigits 10 n).reverse).reverse)

/-- Two-digit zero-padded rendering of a number below 100. -/
def pad2 (n : Nat) : String :=
  if n < 10 then "0" ++ toString n else toString n

/-- Python `f"{x:,.2f}"` on an exact amount of `cents`. -/
def fmtComma2 (cents : Nat) : String :=
  fmtGrouped (cents / 100) ++ "." ++ pad2 (cents % 100)

/-- Python `f"{z:.2f}"` on an exact value of `hundredths`. -/
def fmt2 (hundredths : Int) : String :=
  (if hundredths < 0 then "-" else "") ++
    toString (hundredths.natAbs / 100) ++ "." ++ pad2 (hundredths.natAbs % 100)

/-! ## Substring containment -/

/-- Statement that `needle` occurs verbatim inside `hay`. -/
def ContainsSub (hay needle : String) : Prop :=
  needle.data <:+: hay.data

instance (hay needle : String) : Decidable (ContainsSub hay needle) :=
  inferInstanceAs (Decidable (needle.data <:+: hay.data))

theorem containsSub_refl (s : String) : ContainsSub s s :=
  List.infix_refl s.data

theorem string_data_append (a b : String) : (a ++ b).data = a.data ++ b.data := rfl

theorem ContainsSub.appendL {b n : String} (a : String) (h : ContainsSub b n) :
    ContainsSub (a ++ b) n := by
  unfold ContainsSub at *
  rw [string_data_append]
  exact h.trans (List.suffix_append a.data b.data).isInfix

theorem ContainsSub.appendR {a n : String} (b : String) (h : ContainsSub a n) :
    ContainsSub (a ++ b) n := by
  unfold ContainsSub at *
  rw [string_data_append]
  exact h.trans (List.prefix_append a.data b.data).isInfix

/-- Concatenation of the successive fragments of an f-string. -/
def concatParts : List String → String
  | [] => ""
  | s :: rest => s ++ concatParts rest

theorem containsSub_concatParts {parts : List String} {part n : String}
    (hp : part ∈ parts) (h : ContainsSub part n) : ContainsSub (concatParts parts) n := by
  induction parts with
  | nil => cases hp
  | cons x rest ih =>
    rcases List.mem_cons.mp hp with rfl | hmem
    · exact h.appendR (concatParts rest)
    · exact (ih hmem).appendL x

/-! ## Data access (`_get_*` helpers of both agents)

Each Python helper opens a connection, runs
`SELECT * FROM <table> WHERE <key_column> = '<key>'` via pandas, closes the
connection, and returns `result.iloc[0].to_dict()` when at least one row
matched and `None` otherwise: the first matching row, as `List.find?`. -/

/-- Lookup of `InvestigationAgent._get_claim_details` and
`ExplanationAgent._get_claim_details`. -/
def getClaimDetails (db : DB) (claim_id : String) : Option Claim :=
  db.claims.find? (fun c => c.claim_id == claim_id)

/-- Lookup of `InvestigationAgent._get_fraud_flags` and
`ExplanationAgent._get_fraud_info` (textually the same query in both agents). -/
def getFraudFlags (db : DB) (claim_id : String) : Option FraudFlag :=
  db.fraud_flags.find? (fun f => f.claim_id == claim_id)

/-- The provider summary of `InvestigationAgent._get_provider_context`:
`provider.iloc[0].to_dict() if len(provider) > 0 else {}`.  (The method also
fetches the provider's ten most recent claims, but
`_build_investigation_prompt` never reads them, so the bundle is summarised
by the optional provider row alone.) -/
def getProviderContext (db : DB) (provider_id : String) : Option Provider :=
  db.providers.find? (fun p => p.provider_id == provider_id)

/-- The patient summary of `InvestigationAgent._get_patient_context`
(recent claims likewise fetched but unread by the prompt builder). -/
def getPatientContext (db : DB) (patient_id : String) : Option Patient :=
  db.patients.find? (fun p => p.patient_id == patient_id)

/-- ASCII single quote, written by code point to keep it out of literals. -/
def sglQuote : String := String.singleton (Char.ofNat 39)

/-- The query text built by `_get_claim_details`:
`f"SELECT * FROM claims WHERE claim_id = '{claim_id}'"`.  The key is
interpolated directly into the SQL string. -/
def getClaimQueryText (claim_id : String) : String :=
  "SELECT * FROM claims WHERE claim_id = " ++ sglQuote ++ claim_id ++ sglQuote

/-- The query text built by `_get_fraud_flags` / `_get_fraud_info`:
`f"SELECT * FROM fraud_flags WHERE claim_id = '{claim_id}'"`. -/
def getFraudFlagsQueryText (claim_id : String) : String :=
  "SELECT * FROM fraud_flags WHERE claim_id = " ++ sglQuote ++ claim_id ++ sglQuote

/-- The provider-summary query text of `_get_provider_context`. -/
def getProviderQueryText (provider_id : String) : String :=
  "SELECT * FROM providers WHERE provider_id = " ++ sglQuote ++ provider_id ++ sglQuote

/-! ## Model gateway (`LLMClient`) -/

/-- One role-tagged chat message. -/
structure Message where
  role : String
  content : String
deriving DecidableEq

/-- The request `LLMClient.chat` submits to the completion endpoint:
the messages and the sampling temperature (the model identifier comes from
external configuration, out of scope here). -/
structure ChatRequest where
  messages : List Message
  temperature : ℚ
deriving DecidableEq

/-- Request construction of `LLMClient.chat(messages, temperature=0.7)`;
`none` models the caller omitting the argument, taking the default `0.7`. -/
def chatRequest (messages : List Message) (temperature : Option ℚ) : ChatRequest :=
  ⟨messages, temperature.getD (7 / 10)⟩

/-- The fragments of the f-string template inside `LLMClient.analyze_fraud`. -/
def analyzeFraudParts (claim_data context : String) : List String :=
  ["You are a fraud detection expert. Analyze this claim:\n        \nClaim Data: ",
   claim_data,
   "\nContext: ",
   context,
   "\n\nProvide:\n1. Fraud likelihood score (1-10)\n2. Key red flags\n3. Investigation priority (Low/Medium/High)\n"]

/-- The prompt text built by `LLMClient.analyze_fraud`. -/
def analyzeFraudPrompt (claim_data context : String) : String :=
  concatParts (analyzeFraudParts claim_data context)

/-- The request `LLMClient.analyze_fraud` submits:
one user message with the wrapped prompt, at temperature `0.3`. -/
def analyzeFraudRequest (claim_data context : String) : ChatRequest :=
  chatRequest [⟨"user", analyzeFraudPrompt claim_data context⟩] (some (3 / 10))

/-- Embedding of `LLMClient.analyze_fraud`, with the completion backend abstracted as a
function from the submitted request to the returned text. -/
def analyze_fraud (backend : ChatRequest → String) (claim_data context : String) : String :=
  backend (analyzeFraudRequest claim_data context)

/-! ## Prompt builder: investigation template
(`InvestigationAgent._build_investigation_prompt`) -/

/-- Rendering of the `PROVIDER CONTEXT` block.  When the provider row is
missing the summary dict is `{}`, so `provider.get('total_claims', 'N/A')`
renders `N/A` while the three numeric fields fall back to `0`. -/
def providerBlock (p : Option Provider) : String :=
  "PROVIDER CONTEXT:\n- Total claims submitted: " ++
    (match p with
     | some pr => toString pr.total_claims
     | none => "N/A") ++
  "\n- Average claim amount: $" ++
    fmtComma2 (match p with
     | some pr => pr.avg_claim_amount
     | none => 0) ++
  "\n- Total billed: $" ++
    fmtComma2 (match p with
     | some pr => pr.total_billed
     | none => 0) ++
  "\n- Previous fraud cases: " ++
    toString (match p with
     | some pr => pr.fraud_claims
     | none => 0) ++
  "\n\n"

/-- Rendering of the `PATIENT CONTEXT` block, with the same `{}` fallback
behaviour as `providerBlock`. -/
def patientBlock (q : Option Patient) : String :=
  "PATIENT CONTEXT:\n- Total claims: " ++
    (match q with
     | some pa => toString pa.total_claims
     | none => "N/A") ++
  "\n- Total spent: $" ++
    fmtComma2 (match q with
     | some pa => pa.total_spent
     | none => 0) ++
  "\n- Previous fraud cases: " ++
    toString (match q with
     | some pa => pa.fraud_claims
     | none => 0) ++
  "\n\n"

/-- The fixed closing block of the investigation template: the requested
four-field response format. -/
def reportFormatBlock : String :=
  "Based on this information, provide a concise fraud investigation report in the following format:\n\nFRAUD LIKELIHOOD: [1-10 score]\nKEY RED FLAGS: [2-3 specific concerns]\nINVESTIGATION PRIORITY: [Low/Medium/High/Critical]\nRECOMMENDATION: [Approve/Deny/Request More Info/Escalate]\n\nKeep your response concise and focus on the most important fraud indicators."

/-- The successive fragments of the investigation f-string template. -/
def investigationPromptParts (c : Claim) (p : Option Provider) (q : Option Patient)
    (f : FraudFlag) : List String :=
  ["You are an expert fraud investigator analyzing an insurance claim flagged as potentially fraudulent.\n\nCLAIM DETAILS:\n- Claim ID: ",
   c.claim_id,
   "\n- Amount: $" ++ fmtComma2 c.claim_amount,
   "\n- Date: ", c.claim_date,
   "\n- Provider: ", c.provider_id, " (", c.provider_specialty,
   ")\n- Procedure: ", c.procedure_code,
   "\n- Diagnosis: ", c.diagnosis_code,
   "\n- Status: ", c.status,
   "\n\nFRAUD FLAGS TRIGGERED:\n- Rules: ", f.rules_triggered,
   "\n- Fraud Score: " ++ toString f.fraud_score ++ "/100",
   "\n- Explanation: ", f.explanation,
   "\n\n",
   providerBlock p,
   patientBlock q,
   "CLAIM Z-SCORE: " ++ fmt2 (c.amount_zscore.getD 0) ++ " (higher = more unusual for specialty)\n\n",
   reportFormatBlock]

/-- The investigation prompt text rendered for a bundle whose fraud-flag row
is present. -/
def investigationPromptText (c : Claim) (p : Option Provider) (q : Option Patient)
    (f : FraudFlag) : String :=
  concatParts (investigationPromptParts c p q f)

/-- Embedding of `_build_investigation_prompt(claim, provider_ctx,
patient_ctx, fraud_flags)`.  When `fraud_flags` is `None` (claim has no
fraud-flag row) the template subscripts `fraud_flags['rules_triggered']`,
raising a `TypeError`. -/
def buildInvestigationPrompt (c : Claim) (p : Option Provider) (q : Option Patient)
    (fraud_flags : Option FraudFlag) : Except String String :=
  match fraud_flags with
  | none => .error "TypeError: NoneType object is not subscriptable"
  | some f => .ok (investigationPromptText c p q f)

/-! ## Prompt builder: explanation template
(`ExplanationAgent._build_explanation_prompt`) -/

/-- The fixed jargon-prohibition sentence of the explanation template. -/
def jargonInstructionText : String :=
  "Do not use jargon like \"Z-score\" or \"statistical outlier\". Use plain language like \"unusually high amount\" or \"multiple claims in short time\"."

/-- The successive fragments of the explanation f-string template.  (Its
`investigation` parameter defaults to `None` and is never read by the
template, so it is not modelled.) -/
def explanationPromptParts (c : Claim) (f : FraudFlag) : List String :=
  ["You are explaining a fraud case to a non-technical insurance adjuster. \n\nCLAIM INFORMATION:\n- Claim ID: ",
   c.claim_id,
   "\n- Amount: $" ++ fmtComma2 c.claim_amount,
   "\n- Provider: ", c.provider_specialty,
   "\n- Procedure: ", c.procedure_code,
   "\n- Diagnosis: ", c.diagnosis_code,
   "\n\nFRAUD DETECTION RESULTS:\n- Fraud Score: " ++ toString f.fraud_score ++ "/100",
   "\n- Rules Triggered: ", f.rules_triggered,
   "\n- Technical Explanation: ", f.explanation,
   "\n\nGenerate a clear, concise explanation (2-3 sentences) that:\n1. States WHY this claim is suspicious\n2. Highlights the KEY red flag\n3. Is understandable to someone without technical knowledge\n\n",
   jargonInstructionText,
   "\n\nExample format:\n\"This claim is flagged as suspicious because [main reason]. Specifically, [key red flag]. This pattern is commonly associated with fraudulent billing.\"\n\nYour explanation:"]

/-- The explanation prompt text rendered for a claim row that is present. -/
def explanationPromptText (c : Claim) (f : FraudFlag) : String :=
  concatParts (explanationPromptParts c f)

/-- Embedding of `_build_explanation_prompt(claim, fraud_info)`.  When the
claim row is missing, `claim` is `None` and `claim['claim_id']` raises a
`TypeError`. -/
def buildExplanationPrompt (claim : Option Claim) (fraud_info : FraudFlag) :
    Except String String :=
  match claim with
  | none => .error "TypeError: NoneType object is not subscriptable"
  | some c => .ok (explanationPromptText c fraud_info)

/-! ## Investigation agent pipeline -/

/-- Result dict of `InvestigationAgent.investigate_claim`: either the
claim-not-found dict `{"error": ...}` (which has no `claim_id` key) or the
success dict with its five keys. -/
inductive InvestigationResult where
  | errorReport (error : String)
  | report (claim_id : String) (analysis : String) (claim_amount : Nat)
      (provider : String) (specialty : String)
deriving DecidableEq

/-- The value of the structured `claim_id` field of a result dict, when the
dict has one. -/
def reportClaimId : InvestigationResult → Option String
  | .errorReport _ => none
  | .report cid _ _ _ _ => some cid

/-- Embedding of `InvestigationAgent.investigate_claim(claim_id)`.
`Except.error` models an uncaught Python exception escaping the call. -/
def investigate_claim (backend : ChatRequest → String) (db : DB) (claim_id : String) :
    Except String InvestigationResult :=
  match getClaimDetails db claim_id with
  | none => .ok (.errorReport ("Claim " ++ claim_id ++ " not found"))
  | some claim =>
    match buildInvestigationPrompt claim (getProviderContext db claim.provider_id)
        (getPatientContext db claim.patient_id) (getFraudFlags db claim_id) with
    | .error e => .error e
    | .ok prompt =>
      .ok (.report claim_id (analyze_fraud backend prompt "")
        claim.claim_amount claim.provider_id claim.provider_specialty)

/-! ## Top-cases ranking (`InvestigationAgent.investigate_top_cases`) -/

/-- The rows satisfying `WHERE fraud_detected = 1`. -/
def flaggedCases (db : DB) : List FraudFlag :=
  db.fraud_flags.filter (fun f => f.fraud_detected == 1)

/-- Comparison used by `ORDER BY fraud_score DESC`. -/
def scoreGe (a b : FraudFlag) : Prop := b.fraud_score ≤ a.fraud_score

instance : DecidableRel scoreGe := fun a b => Nat.decLe b.fraud_score a.fraud_score

/-- Admissible result sets of the query
`SELECT ... FROM fraud_flags WHERE fraud_detected = 1 ORDER BY fraud_score
DESC LIMIT limit`: SQLite guarantees only that the returned rows are some
reordering of the flagged rows that is non-increasing in `fraud_score`,
truncated to `limit`; the relative order of equal scores is unspecified. -/
def TopCasesResult (db : DB) (limit : Nat) (top : List FraudFlag) : Prop :=
  ∃ perm, List.Perm perm (flaggedCases db) ∧ perm.Sorted scoreGe ∧ top = perm.take limit

/-- Embedding of the per-case loop body of `investigate_top_cases`: each
selected case is investigated in order and appended to `results`; after the
append, `print(investigation['analysis'])` raises a `KeyError` if the
investigation returned the error dict, which aborts the whole call. -/
def runInvestigations (backend : ChatRequest → String) (db : DB) :
    List FraudFlag → Except String (List InvestigationResult)
  | [] => .ok []
  | f :: rest =>
    match investigate_claim backend db f.claim_id with
    | .error e => .error e
    | .ok r =>
      match r with
      | .errorReport _ => .error "KeyError: analysis"
      | .report _ _ _ _ _ =>
        match runInvestigations backend db rest with
        | .error e => .error e
        | .ok l => .ok (r :: l)

/-- Boolean lexicographic order on character lists (string comparison). -/
def strLtB : List Char → List Char → Bool
  | [], [] => false
  | [], _ :: _ => true
  | _ :: _, [] => false
  | a :: as, b :: bs => if a < b then true else if b < a then false else strLtB as bs

/-- Modelled from the spec: the claimed deterministic ranking order,
`fraud_score` descending with ties broken by `claim_id` ascending.  This is
the comparison the claim attributes to the code; the code's `ORDER BY` has
no `claim_id` tie-break. -/
def specLe (a b : FraudFlag) : Bool :=
  decide (b.fraud_score < a.fraud_score) ||
    (a.fraud_score == b.fraud_score && !(strLtB b.claim_id.data a.claim_id.data))

/-- Insertion of one flag into a list already sorted by `specLe`. -/
def insertSorted (a : FraudFlag) : List FraudFlag → List FraudFlag
  | [] => [a]
  | b :: rest => if specLe a b then a :: b :: rest else b :: insertSorted a rest

/-- Modelled from the spec: the unique ranked selection the claim describes
(`fraud_score` descending, ties by `claim_id` ascending, top `limit`). -/
def specRankedTop (db : DB) (limit : Nat) : List FraudFlag :=
  ((flaggedCases db).foldr insertSorted []).take limit

/-! ## Explanation agent pipeline -/

/-- Embedding of `ExplanationAgent.explain_fraud_case(claim_id)`: returns
the not-found message when the fraud-flag row is missing, otherwise builds
the prompt (raising if the claim row is missing) and submits one user
message at temperature `0.7`. -/
def explain_fraud_case (backend : ChatRequest → String) (db : DB) (claim_id : String) :
    Except String String :=
  match getFraudFlags db claim_id with
  | none => .ok ("No fraud information found for claim " ++ claim_id)
  | some fraud_info =>
    match buildExplanationPrompt (getClaimDetails db claim_id) fraud_info with
    | .error e => .error e
    | .ok prompt => .ok (backend (chatRequest [⟨"user", prompt⟩] (some (7 / 10))))

/-- One entry of the batch report list built by `generate_fraud_report`. -/
structure ReportEntry where
  claim_id : String
  explanation : String
deriving DecidableEq

/-- Embedding of `ExplanationAgent.generate_fraud_report(claim_ids)`: the
loop appends one `{'claim_id': ..., 'explanation': ...}` dict per input id in
input order; an uncaught exception in `explain_fraud_case` aborts the whole
batch. -/
def generate_fraud_report (backend : ChatRequest → String) (db : DB) :
    List String → Except String (List ReportEntry)
  | [] => .ok []
  | claim_id :: rest =>
    match explain_fraud_case backend db claim_id with
    | .error e => .error e
    | .ok expl =>
      match generate_fraud_report backend db rest with
      | .error e => .error e
      | .ok l => .ok (⟨claim_id, expl⟩ :: l)

/-! ## Concrete fixtures used by the closed theorems -/

/-- A completion backend returning a fixed response for every request. -/
def fixedBackend : ChatRequest → String := fun _ => "ANALYSIS"

/-- The scenario claim of the spec: amount 15000.00, specialty Cardiology. -/
def claimC100 : Claim :=
  ⟨"C100", 1500000, "2024-01-15", "P1", "T1", "PRC1", "D1", "approved",
   "Cardiology", some 310, 1⟩

/-- The scenario fraud flag: score 85, two rules triggered. -/
def flagC100 : FraudFlag :=
  ⟨"C100", 1, 85, "high_amount,duplicate_billing", "Amount anomaly detected"⟩

/-- Data source holding the scenario claim with its flag. -/
def dbC100 : DB := ⟨[claimC100], [], [], [flagC100]⟩

/-- A claim present in `claims` but absent from `fraud_flags`. -/
def claimC200 : Claim :=
  ⟨"C200", 420000, "2024-03-01", "P7", "T7", "PR77", "D77", "pending",
   "Oncology", some 120, 0⟩

/-- Data source with an unflagged claim. -/
def dbUnflagged : DB := ⟨[claimC200], [], [], []⟩

/-- An empty data source. -/
def dbEmpty : DB := ⟨[], [], [], []⟩

/-! ## C1 -/

/-- C1: the claim asserts that investigating a claim whose fraud-flag row is
absent treats the absence as a valid state and returns a successful report.
On the code, `_get_fraud_flags` returns `None` for such a claim and
`_build_investigation_prompt` immediately subscripts it, so
`investigate_claim` raises a `TypeError` instead of returning: evaluated
here on a data source whose `claims` table holds `C200` but whose
`fraud_flags` table has no row for it. -/
theorem c1_missing_fraud_flag_raises :
    getClaimDetails dbUnflagged "C200" = some claimC200 ∧
    getFraudFlags dbUnflagged "C200" = none ∧
    investigate_claim fixedBackend dbUnflagged "C200" =
      .error "TypeError: NoneType object is not subscriptable" :=
  ⟨rfl, rfl, rfl⟩

/-! ## C4 -/

/-- C4 counterexample: the claim asserts the explanation prompt never
contains the literal jargon tokens; in fact the template's own
jargon-prohibition sentence contains both "Z-score" and "outlier", so the
prompt built for the concrete scenario bundle contains both. -/
theorem c4_jargon_counterexample :
    ContainsSub (explanationPromptText claimC100 flagC100) "Z-score" ∧
    ContainsSub (explanationPromptText claimC100 flagC100) "outlier" := by
  have hm : jargonInstructionText ∈ explanationPromptParts claimC100 flagC100 := by
    simp [explanationPromptParts]
  have hz : ContainsSub jargonInstructionText "Z-score" := by decide
  have ho : ContainsSub jargonInstructionText "outlier" := by decide
  exact ⟨containsSub_concatParts hm hz, containsSub_concatParts hm ho⟩

/-- C4 (amended): for every bundle, the explanation prompt contains the
fixed instruction sentence that forbids the jargon (and that sentence is
the template's mention of the tokens "Z-score" and "outlier"); the prompt
therefore always, not never, contains those tokens. -/
theorem c4_jargon_instruction_amended :
    ∀ (c : Claim) (f : FraudFlag),
      ContainsSub (explanationPromptText c f) jargonInstructionText := by
  intro c f
  have hm : jargonInstructionText ∈ explanationPromptParts c f := by
    simp [explanationPromptParts]
  exact containsSub_concatParts hm (containsSub_refl _)

/-! ## C5 -/

/-- C5 counterexample: the claim asserts every report carries its claim_id
as a structured field even on claim-not-found; the claim-not-found result
of `investigate_claim` is the dict `{"error": ...}`, which has no
`claim_id` key. -/
theorem c5_error_report_counterexample :
    investigate_claim fixedBackend dbEmpty "NOPE" =
      .ok (.errorReport "Claim NOPE not found") ∧
    reportClaimId (.errorReport "Claim NOPE not found") = none :=
  ⟨rfl, rfl⟩

/-- C5 (amended): every successful investigation report carries the
claim_id it was generated for as a structured field; the claim-not-found
result instead embeds the claim_id only inside its error message text; and
every batch explanation report entry carries its claim_id in input order. -/
theorem c5_claim_id_amended :
    (∀ (backend : ChatRequest → String) (db : DB) (cid : String)
        (r : InvestigationResult), investigate_claim backend db cid = .ok r →
      reportClaimId r = some cid ∨
        ∃ e, r = .errorReport e ∧ ContainsSub e cid) ∧
    (∀ (backend : ChatRequest → String) (db : DB) (cids : List String)
        (l : List ReportEntry), generate_fraud_report backend db cids = .ok l →
      l.map ReportEntry.claim_id = cids) := by
  constructor
  · intro backend db cid r h
    cases hc : getClaimDetails db cid with
    | none =>
      simp only [investigate_claim, hc, Except.ok.injEq] at h
      refine Or.inr ⟨"Claim " ++ cid ++ " not found", h.symm, ?_⟩
      exact ((containsSub_refl cid).appendL "Claim ").appendR " not found"
    | some claim =>
      cases hf : getFraudFlags db cid with
      | none =>
        simp [investigate_claim, hc, hf, buildInvestigationPrompt] at h
      | some ff =>
        simp only [investigate_claim, hc, hf, buildInvestigationPrompt,
          Except.ok.injEq] at h
        exact Or.inl (by rw [← h]; rfl)
  · intro backend db cids
    induction cids with
    | nil =>
      intro l h
      simp only [generate_fraud_report, Except.ok.injEq] at h
      rw [← h]; rfl
    | cons cid rest ih =>
      intro l h
      cases he : explain_fraud_case backend db cid with
      | error e => simp [generate_fraud_report, he] at h
      | ok expl =>
        cases hr : generate_fraud_report backend db rest with
        | error e => simp [generate_fraud_report, he, hr] at h
        | ok l2 =>
          simp only [generate_fraud_report, he, hr, Except.ok.injEq] at h
          rw [← h]
          simp [ih l2 hr]

/-- C5 witness: the amended theorem applied to the concrete claim-not-found
result on the empty data source. -/
theorem c5_claim_id_amended_witness :
    reportClaimId (.errorReport "Claim NOPE not found") = some "NOPE" ∨
      ∃ e, InvestigationResult.errorReport "Claim NOPE not found" =
        .errorReport e ∧ ContainsSub e "NOPE" :=
  c5_claim_id_amended.1 fixedBackend dbEmpty "NOPE" _ rfl

/-! ## C8 -/

/-- C8: the claim (and the spec's mandated security contract) requires the
query text to be parameter-bound and independent of the key; the code
instead interpolates the key into the SQL f-string, so every key occurs
verbatim in the query text and the text varies with the key. -/
theorem c8_query_interpolation :
    (∀ k : String, ContainsSub (getClaimQueryText k) k) ∧
    (∀ k : String, ContainsSub (getFraudFlagsQueryText k) k) ∧
    getClaimQueryText "A" ≠ getClaimQueryText "B" := by
  refine ⟨?_, ?_, by decide⟩
  · intro k
    exact (((containsSub_refl k).appendL
      ("SELECT * FROM claims WHERE claim_id = " ++ sglQuote)).appendR sglQuote)
  · intro k
    exact (((containsSub_refl k).appendL
      ("SELECT * FROM fraud_flags WHERE claim_id = " ++ sglQuote)).appendR sglQuote)

/-! ## C9 -/

/-- C9: the specialized analysis path submits its request at the fixed
temperature 0.3, while the general chat path defaults to temperature 0.7
when the caller supplies none. -/
theorem c9_temperatures :
    (∀ claim_data context : String,
      (analyzeFraudRequest claim_data context).temperature = 3 / 10) ∧
    (∀ messages : List Message, (chatRequest messages none).temperature = 7 / 10) :=
  ⟨fun _ _ => rfl, fun _ => rfl⟩

/-! ## C3 -/

/-- Data source whose claim references a provider and a patient that do not
exist, with the fraud-flag row present. -/
def claimC300 : Claim :=
  ⟨"C300", 1500000, "2024-02-02", "P9", "T9", "PR9", "D9", "pending",
   "Cardiology", none, 1⟩

/-- Fraud flag for the orphan-reference claim. -/
def flagC300 : FraudFlag := ⟨"C300", 1, 77, "high_amount", "flagged upstream"⟩

/-- Data source with empty `providers` and `patients` tables. -/
def dbOrphanRefs : DB := ⟨[claimC300], [], [], [flagC300]⟩

/-- C3 counterexample: the claim asserts that for a missing provider or
patient the statistics are rendered as an explicit "not available"
placeholder rather than as zero.  Investigation does succeed, but the
average-amount, total-billed, total-spent and prior-fraud statistics of the
missing provider and patient are rendered as `$0.00` and `0`. -/
theorem c3_zero_rendering_counterexample :
    investigate_claim fixedBackend dbOrphanRefs "C300" =
      .ok (.report "C300" "ANALYSIS" 1500000 "P9" "Cardiology") ∧
    ContainsSub (investigationPromptText claimC300 none none flagC300)
      "- Average claim amount: $0.00" ∧
    ContainsSub (investigationPromptText claimC300 none none flagC300)
      "- Total spent: $0.00" ∧
    ContainsSub (investigationPromptText claimC300 none none flagC300)
      "- Previous fraud cases: 0" := by
  have hmp : providerBlock none ∈ investigationPromptParts claimC300 none none flagC300 := by
    simp [investigationPromptParts]
  have hmq : patientBlock none ∈ investigationPromptParts claimC300 none none flagC300 := by
    simp [investigationPromptParts]
  refine ⟨rfl, ?_, ?_, ?_⟩
  · exact containsSub_concatParts hmp (by decide)
  · exact containsSub_concatParts hmq (by decide)
  · exact containsSub_concatParts hmp (by decide)

/-- C3 (amended): when the claim and its fraud flag exist but the
referenced provider and patient rows are missing, both contexts degrade to
the empty summary and `investigate_claim` still returns a successful report
without raising; in the prompt, the two total-claims counts render as the
`N/A` placeholder while the average-amount, total-billed, total-spent and
prior-fraud statistics render as zero. -/
theorem c3_missing_entity_amended (backend : ChatRequest → String) (db : DB)
    (cid : String) (claim : Claim) (ff : FraudFlag)
    (hc : getClaimDetails db cid = some claim)
    (hf : getFraudFlags db cid = some ff)
    (hp : getProviderContext db claim.provider_id = none)
    (hq : getPatientContext db claim.patient_id = none) :
    investigate_claim backend db cid =
      .ok (.report cid
        (analyze_fraud backend (investigationPromptText claim none none ff) "")
        claim.claim_amount claim.provider_id claim.provider_specialty) ∧
    ContainsSub (investigationPromptText claim none none ff)
      "- Total claims submitted: N/A" ∧
    ContainsSub (investigationPromptText claim none none ff)
      "- Average claim amount: $0.00" ∧
    ContainsSub (investigationPromptText claim none none ff)
      "- Total billed: $0.00" ∧
    ContainsSub (investigationPromptText claim none none ff)
      "- Total claims: N/A" ∧
    ContainsSub (investigationPromptText claim none none ff)
      "- Total spent: $0.00" := by
  have hmp : providerBlock none ∈ investigationPromptParts claim none none ff := by
    simp [investigationPromptParts]
  have hmq : patientBlock none ∈ investigationPromptParts claim none none ff := by
    simp [investigationPromptParts]
  refine ⟨?_, ?_, ?_, ?_, ?_, ?_⟩
  · simp [investigate_claim, hc, hf, hp, hq, buildInvestigationPrompt]
  · exact containsSub_concatParts hmp (by decide)
  · exact containsSub_concatParts hmp (by decide)
  · exact containsSub_concatParts hmp (by decide)
  · exact containsSub_concatParts hmq (by decide)
  · exact containsSub_concatParts hmq (by decide)

/-- C3 witness: the amended theorem applied to the concrete data source
with empty provider and patient tables. -/
theorem c3_missing_entity_amended_witness :
    getClaimDetails dbOrphanRefs "C300" = some claimC300 ∧
    getFraudFlags dbOrphanRefs "C300" = some flagC300 ∧
    getProviderContext dbOrphanRefs claimC300.provider_id = none ∧
    getPatientContext dbOrphanRefs claimC300.patient_id = none ∧
    (investigate_claim fixedBackend dbOrphanRefs "C300" =
      .ok (.report "C300"
        (analyze_fraud fixedBackend (investigationPromptText claimC300 none none flagC300) "")
        claimC300.claim_amount claimC300.provider_id claimC300.provider_specialty) ∧
    ContainsSub (investigationPromptText claimC300 none none flagC300)
      "- Total claims submitted: N/A" ∧
    ContainsSub (investigationPromptText claimC300 none none flagC300)
      "- Average claim amount: $0.00" ∧
    ContainsSub (investigationPromptText claimC300 none none flagC300)
      "- Total billed: $0.00" ∧
    ContainsSub (investigationPromptText claimC300 none none flagC300)
      "- Total claims: N/A" ∧
    ContainsSub (investigationPromptText claimC300 none none flagC300)
      "- Total spent: $0.00") :=
  ⟨rfl, rfl, rfl, rfl,
   c3_missing_entity_amended fixedBackend dbOrphanRefs "C300" claimC300 flagC300
     rfl rfl rfl rfl⟩

/-! ## C7 -/

/-- C7: for every bundle the investigation prompt contains the four section
headers verbatim, and for the spec's concrete scenario (amount 15000.00,
fraud score 85, rules "high_amount,duplicate_billing" — the other fields
arbitrary) it renders `$15,000.00`, `85/100`, and both rule names. -/
theorem c7_investigation_prompt_format :
    (∀ (c : Claim) (p : Option Provider) (q : Option Patient) (f : FraudFlag),
      ContainsSub (investigationPromptText c p q f) "FRAUD LIKELIHOOD:" ∧
      ContainsSub (investigationPromptText c p q f) "KEY RED FLAGS:" ∧
      ContainsSub (investigationPromptText c p q f) "INVESTIGATION PRIORITY:" ∧
      ContainsSub (investigationPromptText c p q f) "RECOMMENDATION:") ∧
    (∀ (cid date pid tid proc diag st spec fcid expl : String) (z : Option Int)
        (isf fd : Nat) (p : Option Provider) (q : Option Patient),
      ContainsSub (investigationPromptText
        ⟨cid, 1500000, date, pid, tid, proc, diag, st, spec, z, isf⟩ p q
        ⟨fcid, fd, 85, "high_amount,duplicate_billing", expl⟩) "$15,000.00" ∧
      ContainsSub (investigationPromptText
        ⟨cid, 1500000, date, pid, tid, proc, diag, st, spec, z, isf⟩ p q
        ⟨fcid, fd, 85, "high_amount,duplicate_billing", expl⟩) "85/100" ∧
      ContainsSub (investigationPromptText
        ⟨cid, 1500000, date, pid, tid, proc, diag, st, spec, z, isf⟩ p q
        ⟨fcid, fd, 85, "high_amount,duplicate_billing", expl⟩) "high_amount" ∧
      ContainsSub (investigationPromptText
        ⟨cid, 1500000, date, pid, tid, proc, diag, st, spec, z, isf⟩ p q
        ⟨fcid, fd, 85, "high_amount,duplicate_billing", expl⟩) "duplicate_billing") := by
  constructor
  · intro c p q f
    have hm : reportFormatBlock ∈ investigationPromptParts c p q f := by
      simp [investigationPromptParts]
    exact ⟨containsSub_concatParts hm (by decide),
           containsSub_concatParts hm (by decide),
           containsSub_concatParts hm (by decide),
           containsSub_concatParts hm (by decide)⟩
  · intro cid date pid tid proc diag st spec fcid expl z isf fd p q
    have hamt : ("\n- Amount: $" ++ fmtComma2 1500000) ∈ investigationPromptParts
        ⟨cid, 1500000, date, pid, tid, proc, diag, st, spec, z, isf⟩ p q
        ⟨fcid, fd, 85, "high_amount,duplicate_billing", expl⟩ := by
      simp [investigationPromptParts]
    have hscore : ("\n- Fraud Score: " ++ toString 85 ++ "/100") ∈ investigationPromptParts
        ⟨cid, 1500000, date, pid, tid, proc, diag, st, spec, z, isf⟩ p q
        ⟨fcid, fd, 85, "high_amount,duplicate_billing", expl⟩ := by
      simp [investigationPromptParts]
    have hrules : ("high_amount,duplicate_billing" : String) ∈ investigationPromptParts
        ⟨cid, 1500000, date, pid, tid, proc, diag, st, spec, z, isf⟩ p q
        ⟨fcid, fd, 85, "high_amount,duplicate_billing", expl⟩ := by
      simp [investigationPromptParts]
    exact ⟨containsSub_concatParts hamt (by decide),
           containsSub_concatParts hscore (by decide),
           containsSub_concatParts hrules (by decide),
           containsSub_concatParts hrules (by decide)⟩

/-! ## C10 -/

/-- C10: the message `analyze_fraud` submits is its own template wrapped
around the caller's text, and that template always requests a three-level
priority "(Low/Medium/High)"; when `investigate_claim` passes the
investigation prompt (which requests the four-level scale and a
recommendation) as `claim_data`, the single user message sent to the model
contains both conflicting format instructions. -/
theorem c10_conflicting_priority_scales :
    ∀ (c : Claim) (p : Option Provider) (q : Option Patient) (f : FraudFlag),
      (analyzeFraudRequest (investigationPromptText c p q f) "").messages =
        [⟨"user", analyzeFraudPrompt (investigationPromptText c p q f) ""⟩] ∧
      ContainsSub (analyzeFraudPrompt (investigationPromptText c p q f) "")
        "Investigation priority (Low/Medium/High)" ∧
      ContainsSub (analyzeFraudPrompt (investigationPromptText c p q f) "")
        "INVESTIGATION PRIORITY: [Low/Medium/High/Critical]" ∧
      ContainsSub (analyzeFraudPrompt (investigationPromptText c p q f) "")
        "RECOMMENDATION: [Approve/Deny/Request More Info/Escalate]" := by
  intro c p q f
  have htail :
      ("\n\nProvide:\n1. Fraud likelihood score (1-10)\n2. Key red flags\n3. Investigation priority (Low/Medium/High)\n" : String)
        ∈ analyzeFraudParts (investigationPromptText c p q f) "" := by
    simp [analyzeFraudParts]
  have hdata : investigationPromptText c p q f
      ∈ analyzeFraudParts (investigationPromptText c p q f) "" := by
    simp [analyzeFraudParts]
  have hfmt : reportFormatBlock ∈ investigationPromptParts c p q f := by
    simp [investigationPromptParts]
  refine ⟨rfl, ?_, ?_, ?_⟩
  · exact containsSub_concatParts htail (by decide)
  · exact containsSub_concatParts hdata
      (containsSub_concatParts hfmt (by decide))
  · exact containsSub_concatParts hdata
      (containsSub_concatParts hfmt (by decide))

/-! ## C2 -/

/-- Helper: when every selected flag's claim row and fraud-flag row exist,
the per-case loop of `investigate_top_cases` succeeds and produces one
report per selected case, in selection order, each carrying the selected
case's claim_id. -/
theorem runInvestigations_ok (backend : ChatRequest → String) (db : DB) :
    ∀ top : List FraudFlag,
      (∀ f ∈ top, (getClaimDetails db f.claim_id).isSome ∧
        (getFraudFlags db f.claim_id).isSome) →
      ∃ l, runInvestigations backend db top = .ok l ∧
        l.map reportClaimId = top.map (fun f => some f.claim_id) := by
  intro top
  induction top with
  | nil => exact fun _ => ⟨[], rfl, rfl⟩
  | cons f rest ih =>
    intro h
    obtain ⟨hcs, hfs⟩ := h f (List.mem_cons_self f rest)
    obtain ⟨c, hc⟩ := Option.isSome_iff_exists.mp hcs
    obtain ⟨ff, hff⟩ := Option.isSome_iff_exists.mp hfs
    obtain ⟨l, hl, hmap⟩ := ih (fun g hg => h g (List.mem_cons_of_mem f hg))
    refine ⟨.report f.claim_id
        (analyze_fraud backend (investigationPromptText c
          (getProviderContext db c.provider_id)
          (getPatientContext db c.patient_id) ff) "")
        c.claim_amount c.provider_id c.provider_specialty :: l, ?_, ?_⟩
    · simp [runInvestigations, investigate_claim, hc, hff,
        buildInvestigationPrompt, hl]
    · simp [reportClaimId, hmap]

/-- C2 counterexample: with flags X, Y both at score 90 and Z at 70, the
code's query may return Y before X (its `ORDER BY` has no tie-break), while
the claim mandates the unique ranking with ties broken by ascending
claim_id, which puts X first: an admissible code outcome differs from the
ranking the claim asserts. -/
theorem c2_tie_order_counterexample :
    TopCasesResult (DB.mk [] [] [] [⟨"X", 1, 90, "r1", "e1"⟩, ⟨"Y", 1, 90, "r2", "e2"⟩, ⟨"Z", 1, 70, "r3", "e3"⟩]) 2
      [⟨"Y", 1, 90, "r2", "e2"⟩, ⟨"X", 1, 90, "r1", "e1"⟩] ∧
    specRankedTop (DB.mk [] [] [] [⟨"X", 1, 90, "r1", "e1"⟩, ⟨"Y", 1, 90, "r2", "e2"⟩, ⟨"Z", 1, 70, "r3", "e3"⟩]) 2 =
      [⟨"X", 1, 90, "r1", "e1"⟩, ⟨"Y", 1, 90, "r2", "e2"⟩] ∧
    ([⟨"Y", 1, 90, "r2", "e2"⟩, ⟨"X", 1, 90, "r1", "e1"⟩] : List FraudFlag) ≠
      specRankedTop (DB.mk [] [] [] [⟨"X", 1, 90, "r1", "e1"⟩, ⟨"Y", 1, 90, "r2", "e2"⟩, ⟨"Z", 1, 70, "r3", "e3"⟩]) 2 :=
  ⟨⟨[⟨"Y", 1, 90, "r2", "e2"⟩, ⟨"X", 1, 90, "r1", "e1"⟩, ⟨"Z", 1, 70, "r3", "e3"⟩],
    by decide, by decide, rfl⟩, by decide, by decide⟩

/-- C2 (amended): every admissible result of the top-cases query consists
of flagged rows sorted by fraud_score descending, of length
`min limit #flagged`, score-dominating all unselected flagged rows — but
with the relative order of equal scores unspecified (no claim_id
tie-break) — and the per-case investigation is then mapped over the
selected list in that order. -/
theorem c2_top_cases_amended (db : DB) (limit : Nat) (top : List FraudFlag)
    (h : TopCasesResult db limit top) :
    top.Sorted scoreGe ∧
    top.length = min limit (flaggedCases db).length ∧
    (∃ rest, List.Perm (top ++ rest) (flaggedCases db) ∧
      ∀ a ∈ top, ∀ b ∈ rest, scoreGe a b) ∧
    (∀ backend : ChatRequest → String,
      (∀ f ∈ top, (getClaimDetails db f.claim_id).isSome ∧
        (getFraudFlags db f.claim_id).isSome) →
      ∃ l, runInvestigations backend db top = .ok l ∧
        l.map reportClaimId = top.map (fun f => some f.claim_id)) := by
  obtain ⟨perm, hperm, hsort, htake⟩ := h
  subst htake
  refine ⟨List.Pairwise.sublist (List.take_sublist limit perm) hsort,
    by rw [List.length_take, hperm.length_eq], ⟨perm.drop limit, ?_, ?_⟩, ?_⟩
  · rw [List.take_append_drop]
    exact hperm
  · have h2 := hsort
    rw [← List.take_append_drop limit perm] at h2
    exact (List.pairwise_append.mp h2).2.2
  · exact fun backend hb => runInvestigations_ok backend db (perm.take limit) hb

/-- C2 witness: the amended theorem applied to a concrete admissible
selection of the two top-scored flags. -/
theorem c2_top_cases_amended_witness :
    TopCasesResult (DB.mk [] [] [] [⟨"X", 1, 90, "r1", "e1"⟩, ⟨"Y", 1, 90, "r2", "e2"⟩, ⟨"Z", 1, 70, "r3", "e3"⟩]) 2
      [⟨"X", 1, 90, "r1", "e1"⟩, ⟨"Y", 1, 90, "r2", "e2"⟩] ∧
    ([⟨"X", 1, 90, "r1", "e1"⟩, ⟨"Y", 1, 90, "r2", "e2"⟩] : List FraudFlag).length =
      min 2 (flaggedCases (DB.mk [] [] [] [⟨"X", 1, 90, "r1", "e1"⟩, ⟨"Y", 1, 90, "r2", "e2"⟩, ⟨"Z", 1, 70, "r3", "e3"⟩])).length :=
  have h : TopCasesResult (DB.mk [] [] [] [⟨"X", 1, 90, "r1", "e1"⟩, ⟨"Y", 1, 90, "r2", "e2"⟩, ⟨"Z", 1, 70, "r3", "e3"⟩]) 2
      [⟨"X", 1, 90, "r1", "e1"⟩, ⟨"Y", 1, 90, "r2", "e2"⟩] :=
    ⟨[⟨"X", 1, 90, "r1", "e1"⟩, ⟨"Y", 1, 90, "r2", "e2"⟩, ⟨"Z", 1, 70, "r3", "e3"⟩],
      by decide, by decide, rfl⟩
  ⟨h, (c2_top_cases_amended _ 2 _ h).2.1⟩

/-! ## C6 -/

/-- C6: on a well-formed data source (every fraud-flag row has a matching
claim row, the spec's one-to-one data model), the batch report contains
exactly one entry per input claim_id, in input order, and an id absent from
the data source contributes its not-found entry instead of raising or
dropping the other reports. -/
theorem c6_batch_order (backend : ChatRequest → String) (db : DB)
    (hwf : ∀ f ∈ db.fraud_flags, ∃ c ∈ db.claims, c.claim_id = f.claim_id) :
    ∀ cids : List String, ∃ l, generate_fraud_report backend db cids = .ok l ∧
      l.map ReportEntry.claim_id = cids ∧
      ∀ cid ∈ cids, getFraudFlags db cid = none →
        (⟨cid, "No fraud information found for claim " ++ cid⟩ : ReportEntry) ∈ l := by
  intro cids
  induction cids with
  | nil => exact ⟨[], rfl, rfl, by simp⟩
  | cons cid rest ih =>
    obtain ⟨l, hl, hmap, hnf⟩ := ih
    have hex : ∃ s, explain_fraud_case backend db cid = .ok s ∧
        (getFraudFlags db cid = none →
          s = "No fraud information found for claim " ++ cid) := by
      cases hf : getFraudFlags db cid with
      | none => exact ⟨_, by simp [explain_fraud_case, hf], fun _ => rfl⟩
      | some fi =>
        have hf' : db.fraud_flags.find? (fun f => f.claim_id == cid) = some fi := hf
        have hmem : fi ∈ db.fraud_flags := List.mem_of_find?_eq_some hf'
        have hid : fi.claim_id = cid := by
          have := List.find?_some hf'
          simpa using this
        obtain ⟨c, hcmem, hcid⟩ := hwf fi hmem
        have hsome : (getClaimDetails db cid).isSome := by
          simp only [getClaimDetails]
          rw [List.find?_isSome]
          exact ⟨c, hcmem, by simp [hcid, hid]⟩
        obtain ⟨cl, hcl⟩ := Option.isSome_iff_exists.mp hsome
        refine ⟨backend (chatRequest [⟨"user", explanationPromptText cl fi⟩]
          (some (7 / 10))), ?_, ?_⟩
        · simp [explain_fraud_case, hf, hcl, buildExplanationPrompt]
        · intro hnone
          simp at hnone
    obtain ⟨s, hs, hsn⟩ := hex
    refine ⟨⟨cid, s⟩ :: l, ?_, ?_, ?_⟩
    · simp [generate_fraud_report, hs, hl]
    · simp [hmap]
    · intro cid2 hcid2 hnone2
      rcases List.mem_cons.mp hcid2 with rfl | hmem2
      · rw [hsn hnone2]
        exact List.mem_cons_self _ _
      · exact List.mem_cons_of_mem _ (hnf cid2 hmem2 hnone2)

/-- C6 witness: the batch over the absent id "NOPE" and the present id
"C100" on the scenario data source. -/
theorem c6_batch_order_witness :
    (∀ f ∈ dbC100.fraud_flags, ∃ c ∈ dbC100.claims, c.claim_id = f.claim_id) ∧
    ∃ l, generate_fraud_report fixedBackend dbC100 ["NOPE", "C100"] = .ok l ∧
      l.map ReportEntry.claim_id = ["NOPE", "C100"] ∧
      ∀ cid ∈ (["NOPE", "C100"] : List String), getFraudFlags dbC100 cid = none →
        (⟨cid, "No fraud information found for claim " ++ cid⟩ : ReportEntry) ∈ l :=
  have hwf : ∀ f ∈ dbC100.fraud_flags, ∃ c ∈ dbC100.claims, c.claim_id = f.claim_id := by
    decide
  ⟨hwf, c6_batch_order fixedBackend dbC100 hwf ["NOPE", "C100"]⟩
